import Mathlib

/-!
Verification of the probe selection and measurement scheduling pipeline
(`measurement-scheduler/scheduler.py` and `probe-selector/select-probes.py`).

The Python code is shallowly embedded: times of day become microseconds
since local midnight (`Nat`), probe records become a `Probe` structure,
Python `assert` failures become `Except.error ()`, and the external
timezone database (timezonefinder) and the wall clock are passed in as
explicit function parameters.
-/

namespace Scheduler

/-- A RIPE Atlas probe record, mirroring the JSON fields the scripts read:
`id`, `country_code`, `tags`, `status_name`, `address_v4`, `address_v6`,
`latitude`, `longitude`.  Coordinates are modelled as rationals. -/
structure Probe where
  id : Nat
  country_code : Option String
  tags : List String
  status_name : String
  address_v4 : Option String
  address_v6 : Option String
  latitude : Rat
  longitude : Rat
deriving DecidableEq

/-- `GRACE_PERIOD = 60` seconds from scheduler.py. -/
def GRACE_PERIOD : Nat := 60

/-- `CC_LEN = 2`: length of an ISO 3166 country code. -/
def CC_LEN : Nat := 2

/-- Microseconds per second; `datetime.time` has microsecond resolution,
so times of day are modelled as microseconds since local midnight. -/
def usPerSecond : Nat := 1000000

/-- A time of day built from hours, minutes, seconds and microseconds. -/
def hmsu (h m s us : Nat) : Nat := ((h * 60 + m) * 60 + s) * usPerSecond + us

/-- A whole-second time of day. -/
def hms (h m s : Nat) : Nat := hmsu h m s 0

/-- `MEASUREMENT_TIMES`: the eight fixed slots 00:00, 03:00, ..., 21:00. -/
def MEASUREMENT_TIMES : List Nat :=
  [hms 0 0 0, hms 3 0 0, hms 6 0 0, hms 9 0 0,
   hms 12 0 0, hms 15 0 0, hms 18 0 0, hms 21 0 0]

/-- `BAD_TAGS` from both scripts. -/
def BAD_TAGS : List String :=
  ["system-geoloc-disputed", "core", "cloud", "vps", "ixp"]

/-- `GOOD_TAGS` from both scripts (the residential allow-list). -/
def GOOD_TAGS : List String :=
  ["deutsche-glasfaser", "dn42", "fiona", "freedom-internet", "fttb", "fttp",
   "gpnrp", "hybrid", "makerspace", "mesh", "openfiber", "pon", "ukraine",
   "verizon", "virgin-media", "6in4", "fiber", "frontier", "lxc", "swisscom",
   "bell", "cox-3", "fttp-2", "container", "fbnh", "fttb-2", "464xlat",
   "system-wifi", "telenet", "sixxs", "google-fiber", "system-flakey-power",
   "o2", "system-flakey-connection", "xfinity", "freifunk", "no-ipv4",
   "xs4all", "t-mobile", "kpn", "5g", "sfr", "ipv6nat", "spectrum", "att",
   "nat64", "wimax", "epix", "ipv6-only", "v5hitron", "starlink", "fttc",
   "twc", "3g", "6rd", "telekom", "system-resolves-aaaa-incorrectly",
   "known-ipv4-issues", "satellite", "vodafone", "ziggo", "docsis-31",
   "openwrt-3", "ds-lite", "6to4", "pi-hole", "nosi", "fios", "hackerspace",
   "upc", "pppoe", "vpn", "wi-fi", "docker", "he", "gpon", "homelab",
   "orange", "4g", "comcast", "cgn", "dtag", "mobile", "lte", "double-nat",
   "wireless-isp", "adsl", "docsis3", "ipv6-tunnel", "vdsl", "vdsl2", "ftth",
   "office", "dsl", "cable", "home", "nat"]

/-- `BAD_STATUS_NAMES` from both scripts. -/
def BAD_STATUS_NAMES : List String := ["Disconnected", "Abandoned"]

/-- Absolute difference of two times of day, as in
`abs(dt1 - dt2)` on two datetimes combined with the same date. -/
def absDiff (a b : Nat) : Nat := if a ≤ b then b - a else a - b

/-- `ready_for_measurement` from scheduler.py: the loop over
`MEASUREMENT_TIMES` returns true as soon as one slot is within
`GRACE_PERIOD` seconds of the given time; same-day subtraction only. -/
def ready_for_measurement (t1 : Nat) : Bool :=
  MEASUREMENT_TIMES.any (fun t2 =>
    decide (absDiff t1 t2 < GRACE_PERIOD * usPerSecond))

/-- Spec-side definition: the list of same-day distances to each slot. -/
def slot_diffs (t : Nat) : List Nat := MEASUREMENT_TIMES.map (absDiff t)

/-- Spec-side definition, following the spec's words: the minimum absolute
same-day difference between `t` and the eight slots (24h as neutral seed,
larger than any same-day difference). -/
def min_slot_diff (t : Nat) : Nat := (slot_diffs t).foldr min (hms 24 0 0)

/-- Python's `str.startswith`: codepoint-level literal prefix test. -/
def starts_with (pre s : String) : Bool := pre.data.isPrefixOf s.data

/-- `tags_are_bad` from both scripts: some tag is in `BAD_TAGS` or starts
with "data-center" or "datacenter". -/
def tags_are_bad (tags : List String) : Bool :=
  tags.any (fun tag =>
    BAD_TAGS.contains tag
      || starts_with "data-center" tag
      || starts_with "datacenter" tag)

/-- The four rejection counters of `filter_by_eligibility` /
`filter_probes`. -/
structure Counters where
  num_bad_cc : Nat
  num_bad_tags : Nat
  num_bad_status : Nat
  num_addrless : Nat
deriving DecidableEq

/-- Rule 1 test: `probe[COUNTRY_CODE] is None or len(...) != CC_LEN`. -/
def bad_country_code (p : Probe) : Bool :=
  match p.country_code with
  | none => true
  | some cc => decide (cc.length ≠ CC_LEN)

/-- Rule 3 test: `probe[STATUS] in BAD_STATUS_NAMES`. -/
def bad_status (p : Probe) : Bool := BAD_STATUS_NAMES.contains p.status_name

/-- Rule 4 test: `probe[IPV4_ADDR] is None and probe[IPV6_ADDR] is None`. -/
def addressless (p : Probe) : Bool := p.address_v4.isNone && p.address_v6.isNone

/-- Rule 5 test: `any([t in GOOD_TAGS for t in probe[TAGS]])`. -/
def in_good_tags (p : Probe) : Bool :=
  p.tags.any (fun t => GOOD_TAGS.contains t)

/-- The per-probe loop of `filter_by_eligibility` (scheduler.py) and
`filter_probes` (select-probes.py): the if/continue chain evaluated in the
code's fixed order, accumulating the eligible subset (input order kept)
and the four rejection counters. -/
def filter_by_eligibility_loop : List Probe → List Probe × Counters
  | [] => ([], ⟨0, 0, 0, 0⟩)
  | probe :: rest =>
    let r := filter_by_eligibility_loop rest
    if bad_country_code probe then
      (r.1, { r.2 with num_bad_cc := r.2.num_bad_cc + 1 })
    else if tags_are_bad probe.tags then
      (r.1, { r.2 with num_bad_tags := r.2.num_bad_tags + 1 })
    else if bad_status probe then
      (r.1, { r.2 with num_bad_status := r.2.num_bad_status + 1 })
    else if addressless probe then
      (r.1, { r.2 with num_addrless := r.2.num_addrless + 1 })
    else if in_good_tags probe then
      (probe :: r.1, r.2)
    else
      (r.1, r.2)

/-- The verdict the rule chain reaches for a single probe: the first
failing disqualification rule, or accepted, or silently dropped (passed
rules 1-4 but no good tag). -/
inductive Verdict where
  | badCC
  | badTags
  | badStatus
  | addressless
  | accepted
  | silent
deriving DecidableEq

/-- First-matching-rule classification of one probe, in the code's
evaluation order. -/
def classify (p : Probe) : Verdict :=
  if bad_country_code p then .badCC
  else if tags_are_bad p.tags then .badTags
  else if bad_status p then .badStatus
  else if addressless p then .addressless
  else if in_good_tags p then .accepted
  else .silent

/-- `pct` from both scripts: `assert denominator > 0` then percentage;
an assertion failure is an `Except.error`. -/
def pct (numerator denominator : Nat) : Except Unit Rat :=
  if 0 < denominator then
    .ok ((numerator : Rat) / (denominator : Rat) * 100)
  else .error ()

/-- `filter_by_eligibility` from scheduler.py (same body as
`filter_probes` in select-probes.py): runs the loop, then the four summary
log lines each call `pct` with the total probe count as denominator. -/
def filter_by_eligibility (all_probes : List Probe) :
    Except Unit (List Probe) := do
  let r := filter_by_eligibility_loop all_probes
  let _ ← pct r.2.num_addrless all_probes.length
  let _ ← pct r.2.num_bad_cc all_probes.length
  let _ ← pct r.2.num_bad_tags all_probes.length
  let _ ← pct r.2.num_bad_status all_probes.length
  .ok r.1

/-- `lat_lon_to_timezone` from scheduler.py.  The external
timezonefinder lookup is the parameter `tzdb` (called with longitude
first, as `timezone_at(lng=lon, lat=lat)`); the two Python `assert`
statements become `Except.error ()`. -/
def lat_lon_to_timezone (tzdb : Rat → Rat → Option String)
    (lat lon : Rat) : Except Unit String :=
  if lat = 0 ∨ lon = 0 then .error ()
  else
    match tzdb lon lat with
    | none => .error ()
    | some tz => if tz = "" then .error () else .ok tz

/-- The per-probe loop of `filter_by_time`: resolve the probe's zone
(an assertion failure aborts the whole loop), read the probe-local
time of day via `nowAt`, and keep the probe iff `ready_for_measurement`. -/
def filter_by_time_loop (tzdb : Rat → Rat → Option String)
    (nowAt : String → Nat) : List Probe → Except Unit (List Probe)
  | [] => .ok []
  | probe :: rest =>
    match lat_lon_to_timezone tzdb probe.latitude probe.longitude with
    | .error e => .error e
    | .ok tz =>
      match filter_by_time_loop tzdb nowAt rest with
      | .error e => .error e
      | .ok subset =>
        if ready_for_measurement (nowAt tz) then .ok (probe :: subset)
        else .ok subset

/-- `filter_by_time` from scheduler.py: the loop above, then the summary
log line calls `pct(num_not_time, num_probes)`. -/
def filter_by_time (tzdb : Rat → Rat → Option String)
    (nowAt : String → Nat) (all_probes : List Probe) :
    Except Unit (List Probe) := do
  let subset ← filter_by_time_loop tzdb nowAt all_probes
  let _ ← pct (all_probes.length - subset.length) all_probes.length
  .ok subset

/-- Example timezone database: every coordinate maps to Europe/Berlin. -/
def tz_const : Rat → Rat → Option String := fun _ _ => some "Europe/Berlin"

/-- Example zone-name assignment matching `tz_const`. -/
def tz_name : Probe → String := fun _ => "Europe/Berlin"

/-- Example clock: local midnight everywhere (the 00:00 slot, so ready). -/
def now_zero : String → Nat := fun _ => hms 0 0 0

/-- A probe whose latitude is exactly zero (the missing-data sentinel). -/
def probe_zero_lat : Probe :=
  { id := 10, country_code := some "DE", tags := ["home"],
    status_name := "Connected", address_v4 := some "1.2.3.4",
    address_v6 := none, latitude := 0, longitude := 13 }

/-- A well-formed probe with nonzero coordinates. -/
def probe_good : Probe :=
  { id := 11, country_code := some "DE", tags := ["home"],
    status_name := "Connected", address_v4 := some "1.2.3.4",
    address_v6 := none, latitude := 52, longitude := 13 }

/-- One scheduling event inside a 30-minute round of `main`. -/
inductive Event where
  | runBatches : List Probe → Event
  | sleepSecs : Nat → Event
deriving DecidableEq

/-- Is an event a batch-dispatcher invocation? -/
def Event.isRunBatches : Event → Bool
  | .runBatches _ => true
  | .sleepSecs _ => false

/-- The dispatch part of one 30-minute round of `main` (scheduler.py):
when the ready list is non-empty the repeat loop runs
`run_in_batches(current_probes, schedule_measurements)` and then
`time.sleep(60 * 5)`, three times; when it is empty only a log line is
emitted.  The value is the ordered event trace of that round. -/
def round_dispatch (current_probes : List Probe) : List Event :=
  if 0 < current_probes.length then
    (List.range 3).flatMap (fun _ =>
      [Event.runBatches current_probes, Event.sleepSecs (60 * 5)])
  else []

/-- Fuel-indexed chunking into sublists of 50; the fuel only has to be at
least the number of batches for the result to be the code's batching. -/
def chunksFuel : Nat → List Probe → List (List Probe)
  | 0, _ => []
  | _ + 1, [] => []
  | fuel + 1, probe :: rest =>
    ((probe :: rest).take 50) :: chunksFuel fuel ((probe :: rest).drop 50)

/-- `run_in_batches` from scheduler.py: the loop
`for i in range(0, len(probes), batch_size): func(probes[i : i + batch_size])`
with `batch_size = 50`, modelled as the ordered list of batches that
`func` is applied to. -/
def run_in_batches (probes : List Probe) : List (List Probe) :=
  chunksFuel probes.length probes

/-- The kind of cousteau measurement object built by
`create_measurements`. -/
inductive MKind where
  | sslcert
  | traceroute
deriving DecidableEq

/-- One RIPE Atlas measurement specification as built by
`create_measurements` (an `atlas.Sslcert` or `atlas.Traceroute`). -/
structure Measurement where
  kind : MKind
  af : Nat
  description : String
  target : String
  protocol : Option String
  tags : List String
deriving DecidableEq

/-- `V4_TARGET` from scheduler.py (left empty in the source). -/
def V4_TARGET : String := ""

/-- `V6_TARGET` from scheduler.py (left empty in the source). -/
def V6_TARGET : String := ""

/-- `create_measurements` from scheduler.py: for one target and address
family, one certificate-retrieval spec and two traceroute specs (ICMP and
TCP). -/
def create_measurements (target : String) (ip_version : Nat) :
    List Measurement :=
  [{ kind := MKind.sslcert, af := ip_version,
     description := "World-wide latency measurements", target := target,
     protocol := none, tags := ["geo-latency-measurements"] },
   { kind := MKind.traceroute, af := ip_version,
     description := "World-wide latency measurements", target := target,
     protocol := some "ICMP", tags := ["geo-latency-measurements"] },
   { kind := MKind.traceroute, af := ip_version,
     description := "World-wide latency measurements", target := target,
     protocol := some "TCP", tags := ["geo-latency-measurements"] }]

/-- The measurement list one `schedule_measurements` call submits per
batch: `v4_measurements + v6_measurements`. -/
def batch_measurements : List Measurement :=
  create_measurements V4_TARGET 4 ++ create_measurements V6_TARGET 6

/-- A generic probe with a given id, for concrete examples. -/
def mk_probe (i : Nat) : Probe :=
  { id := i, country_code := some "DE", tags := ["home"],
    status_name := "Connected", address_v4 := some "1.2.3.4",
    address_v6 := none, latitude := 1, longitude := 1 }

/-- A concrete list of 120 probes. -/
def probes120 : List Probe := (List.range 120).map mk_probe

/-- Python's `",".join`. -/
def join_comma : List String → String
  | [] => ""
  | [s] => s
  | s :: rest => s ++ "," ++ join_comma rest

/-- The probe-ID string `",".join([str(p[ID]) for p in probes])` of
`schedule_measurements`. -/
def probe_ids_str (probes : List Probe) : String :=
  join_comma (probes.map (fun p => Nat.repr p.id))

/-- The `atlas.AtlasChangeSource` built by `schedule_measurements`:
`value=probe_ids, requested=len(probe_ids), type="probes", action="add"`,
where `probe_ids` is the joined STRING, so `requested` is a character
count. -/
structure ChangeSource where
  value : String
  requested : Nat
  type : String
  action : String

/-- The source record submitted by `schedule_measurements`. -/
def schedule_source (probes : List Probe) : ChangeSource :=
  { value := probe_ids_str probes,
    requested := (probe_ids_str probes).length,
    type := "probes", action := "add" }

/-- One step of the Python dict comprehension
`{p[ID]: p for p in our_probes}`: a repeated key keeps its first-seen
position but takes the new value; a fresh key goes to the end. -/
def dictInsert (k : Nat) (v : Probe) :
    List (Nat × Probe) → List (Nat × Probe)
  | [] => [(k, v)]
  | (k', v') :: rest =>
    if k = k' then (k', v) :: rest else (k', v') :: dictInsert k v rest

/-- The dict `probe_by_id` built by `print_probes`. -/
def probe_by_id (probes : List Probe) : List (Nat × Probe) :=
  probes.foldl (fun d p => dictInsert p.id p d) []

/-- Dictionary lookup `probe_by_id[id]`. -/
def lookupId : List (Nat × Probe) → Nat → Option Probe
  | [], _ => none
  | (k, v) :: rest, i => if i = k then some v else lookupId rest i

/-- Insertion into an ascending list of keys. -/
def insertNat (a : Nat) : List Nat → List Nat
  | [] => [a]
  | b :: bs => if a ≤ b then a :: b :: bs else b :: insertNat a bs

/-- Python's `sorted(...)` on the dict keys (insertion sort). -/
def sortNat : List Nat → List Nat
  | [] => []
  | a :: as => insertNat a (sortNat as)

/-- Insertion sort of probes by id, used to state the output order. -/
def insertProbe (p : Probe) : List Probe → List Probe
  | [] => [p]
  | q :: qs => if p.id ≤ q.id then p :: q :: qs else q :: insertProbe p qs

/-- The probes in ascending id order. -/
def sortProbes : List Probe → List Probe
  | [] => []
  | p :: ps => insertProbe p (sortProbes ps)

/-- The address `print_probes` picks: `probe[IPV4_ADDR]`, falling back to
`probe[IPV6_ADDR]`; `none` means the `assert addr is not None` fails. -/
def pick_addr (p : Probe) : Option String :=
  match p.address_v4 with
  | some a => some a
  | none => p.address_v6

/-- The CSV line `"{},{}".format(id, addr)`. -/
def csv_line (i : Nat) (addr : String) : String := Nat.repr i ++ "," ++ addr

/-- Emit one line per key, in the given key order; a failed address
assertion aborts the printing. -/
def print_lines (d : List (Nat × Probe)) : List Nat → Option (List String)
  | [] => some []
  | i :: rest =>
    match lookupId d i with
    | none => none
    | some probe =>
      match pick_addr probe with
      | none => none
      | some addr =>
        match print_lines d rest with
        | none => none
        | some ls => some (csv_line i addr :: ls)

/-- `print_probes` from both scripts: build `probe_by_id`, walk its keys
in sorted order, and emit one `id,addr` CSV line per key (IPv4
preferred, IPv6 fallback, assertion if both are missing). -/
def print_probes (our_probes : List Probe) : Option (List String) :=
  print_lines (probe_by_id our_probes)
    (sortNat ((probe_by_id our_probes).map Prod.fst))

/-- A probe reachable only over IPv6. -/
def probe_v6only : Probe :=
  { id := 3, country_code := some "NL", tags := ["home"],
    status_name := "Connected", address_v4 := none,
    address_v6 := some "2001:db8::7", latitude := 5, longitude := 5 }

end Scheduler

namespace Scheduler

/-- Folded minimum is below a bound iff the seed or some element is. -/
theorem foldr_min_lt (l : List Nat) (i c : Nat) :
    l.foldr min i < c ↔ i < c ∨ ∃ x ∈ l, x < c := by
  induction l with
  | nil => simp
  | cons a l ih =>
    simp only [List.foldr_cons, min_lt_iff, ih, List.mem_cons]
    constructor
    · rintro (ha | hi | ⟨x, hx, hxc⟩)
      · exact Or.inr ⟨a, Or.inl rfl, ha⟩
      · exact Or.inl hi
      · exact Or.inr ⟨x, Or.inr hx, hxc⟩
    · rintro (hi | ⟨x, rfl | hx, hxc⟩)
      · exact Or.inr (Or.inl hi)
      · exact Or.inl hxc
      · exact Or.inr (Or.inr ⟨x, hx, hxc⟩)

/-- C1: `ready_for_measurement(t)` is true iff the minimum absolute
same-day difference between `t` and one of the eight fixed slots is
strictly below 60 seconds; in particular 00:00:59 and 21:00:20 are ready,
00:01:00 is not, and 23:59:30 is not ready (no midnight wraparound). -/
theorem C1_ready_iff_min_slot_diff_lt :
    (∀ t : Nat, ready_for_measurement t = true ↔
      min_slot_diff t < GRACE_PERIOD * usPerSecond)
    ∧ ready_for_measurement (hms 0 0 59) = true
    ∧ ready_for_measurement (hms 0 1 0) = false
    ∧ ready_for_measurement (hms 20 59 5) = true
    ∧ ready_for_measurement (hms 21 0 20) = true
    ∧ ready_for_measurement (hms 23 59 30) = false := by
  refine ⟨?_, by decide, by decide, by decide, by decide, by decide⟩
  intro t
  rw [ready_for_measurement, List.any_eq_true, min_slot_diff, foldr_min_lt]
  constructor
  · rintro ⟨t2, ht2, hlt⟩
    exact Or.inr ⟨absDiff t t2, List.mem_map_of_mem _ ht2, of_decide_eq_true hlt⟩
  · rintro (h24 | ⟨x, hx, hxc⟩)
    · exact absurd h24 (by decide)
    · rcases List.mem_map.mp hx with ⟨t2, ht2, rfl⟩
      exact ⟨t2, ht2, decide_eq_true hxc⟩

/-- The eligibility loop computes, per component: the probes classified
`accepted` (in order), and one counter per first-failing-rule class. -/
theorem filter_loop_spec (probes : List Probe) :
    (filter_by_eligibility_loop probes).1
        = probes.filter (fun p => decide (classify p = Verdict.accepted))
    ∧ (filter_by_eligibility_loop probes).2.num_bad_cc
        = probes.countP (fun p => decide (classify p = Verdict.badCC))
    ∧ (filter_by_eligibility_loop probes).2.num_bad_tags
        = probes.countP (fun p => decide (classify p = Verdict.badTags))
    ∧ (filter_by_eligibility_loop probes).2.num_bad_status
        = probes.countP (fun p => decide (classify p = Verdict.badStatus))
    ∧ (filter_by_eligibility_loop probes).2.num_addrless
        = probes.countP (fun p => decide (classify p = Verdict.addressless)) := by
  induction probes with
  | nil => simp [filter_by_eligibility_loop]
  | cons p rest ih =>
    obtain ⟨h1, h2, h3, h4, h5⟩ := ih
    by_cases c1 : bad_country_code p
    · simp [filter_by_eligibility_loop, classify, c1, h1, h2, h3, h4, h5,
        List.filter_cons, List.countP_cons]
    · by_cases c2 : tags_are_bad p.tags
      · simp [filter_by_eligibility_loop, classify, c1, c2, h1, h2, h3, h4, h5,
          List.filter_cons, List.countP_cons]
      · by_cases c3 : bad_status p
        · simp [filter_by_eligibility_loop, classify, c1, c2, c3,
            h1, h2, h3, h4, h5, List.filter_cons, List.countP_cons]
        · by_cases c4 : addressless p
          · simp [filter_by_eligibility_loop, classify, c1, c2, c3, c4,
              h1, h2, h3, h4, h5, List.filter_cons, List.countP_cons]
          · by_cases c5 : in_good_tags p
            · simp [filter_by_eligibility_loop, classify, c1, c2, c3, c4, c5,
                h1, h2, h3, h4, h5, List.filter_cons, List.countP_cons]
            · simp [filter_by_eligibility_loop, classify, c1, c2, c3, c4, c5,
                h1, h2, h3, h4, h5, List.filter_cons, List.countP_cons]

/-- The six classification classes partition any probe list. -/
theorem classify_partition (probes : List Probe) :
    probes.countP (fun p => decide (classify p = Verdict.badCC))
      + probes.countP (fun p => decide (classify p = Verdict.badTags))
      + probes.countP (fun p => decide (classify p = Verdict.badStatus))
      + probes.countP (fun p => decide (classify p = Verdict.addressless))
      + probes.countP (fun p => decide (classify p = Verdict.accepted))
      + probes.countP (fun p => decide (classify p = Verdict.silent))
      = probes.length := by
  induction probes with
  | nil => simp
  | cons p rest ih =>
    rcases h : classify p <;>
      simp [List.countP_cons, h] <;> omega

/-- C6: `tags_are_bad` is true iff some tag is a literal member of the
bad-tag set or begins with "data-center" or "datacenter"; the probe tag
"datacenter-3" is caught by the second disjunct although it is not a
member of `BAD_TAGS`. -/
theorem C6_tags_are_bad_iff :
    (∀ tags : List String, tags_are_bad tags = true ↔
      ∃ tag ∈ tags, tag ∈ BAD_TAGS
        ∨ starts_with "data-center" tag = true
        ∨ starts_with "datacenter" tag = true)
    ∧ tags_are_bad ["datacenter-3"] = true
    ∧ "datacenter-3" ∉ BAD_TAGS := by
  refine ⟨?_, by decide, by decide⟩
  intro tags
  rw [tags_are_bad, List.any_eq_true]
  simp only [Bool.or_eq_true, List.contains, List.elem_iff, or_assoc]

/-- C3: each rejection counter counts exactly the probes whose
first-failing rule is that counter's rule (so at most one reason applies
per rejected probe, in the code's fixed order); the country-code rule is
checked first, and a probe whose country code is "USA" (length 3) is
classified bad-country-code whatever its other fields hold. -/
theorem C3_first_failing_rule_wins :
    (∀ probes : List Probe,
      (filter_by_eligibility_loop probes).2.num_bad_cc
          = probes.countP (fun p => decide (classify p = Verdict.badCC))
      ∧ (filter_by_eligibility_loop probes).2.num_bad_tags
          = probes.countP (fun p => decide (classify p = Verdict.badTags))
      ∧ (filter_by_eligibility_loop probes).2.num_bad_status
          = probes.countP (fun p => decide (classify p = Verdict.badStatus))
      ∧ (filter_by_eligibility_loop probes).2.num_addrless
          = probes.countP (fun p => decide (classify p = Verdict.addressless)))
    ∧ (∀ p : Probe, classify p = Verdict.badCC ↔ bad_country_code p = true)
    ∧ (∀ p : Probe, p.country_code = some "USA" →
        classify p = Verdict.badCC) := by
  refine ⟨?_, ?_, ?_⟩
  · intro probes
    obtain ⟨_, h2, h3, h4, h5⟩ := filter_loop_spec probes
    exact ⟨h2, h3, h4, h5⟩
  · intro p
    rw [classify]
    split_ifs with h1 h2 h3 h4 h5 <;> simp [h1]
  · intro p hcc
    have hbad : bad_country_code p = true := by
      rw [bad_country_code, hcc]; decide
    simp [classify, hbad]

/-- Witness for C3 at a concrete probe with country code "USA". -/
theorem C3_first_failing_rule_wins_witness :
    classify
      { id := 7, country_code := some "USA", tags := ["home"],
        status_name := "Connected", address_v4 := some "1.2.3.4",
        address_v6 := none, latitude := 1, longitude := 1 }
      = Verdict.badCC :=
  C3_first_failing_rule_wins.2.2 _ rfl

/-- C4: a probe that passes rules 1-4 but whose tags miss the good-tag
set (`classify = silent`) appears in no counter and not in the eligible
output; the four counters plus the output length stay at most the input
length, the gap being exactly the number of silent probes. -/
theorem C4_silent_drop_counter_invariant :
    ∀ probes : List Probe,
      ((filter_by_eligibility_loop probes).2.num_bad_cc
        + (filter_by_eligibility_loop probes).2.num_bad_tags
        + (filter_by_eligibility_loop probes).2.num_bad_status
        + (filter_by_eligibility_loop probes).2.num_addrless
        + (filter_by_eligibility_loop probes).1.length
        ≤ probes.length)
      ∧ ((filter_by_eligibility_loop probes).2.num_bad_cc
        + (filter_by_eligibility_loop probes).2.num_bad_tags
        + (filter_by_eligibility_loop probes).2.num_bad_status
        + (filter_by_eligibility_loop probes).2.num_addrless
        + (filter_by_eligibility_loop probes).1.length
        + probes.countP (fun p => decide (classify p = Verdict.silent))
        = probes.length)
      ∧ (∀ p : Probe, classify p = Verdict.silent →
          p ∉ (filter_by_eligibility_loop probes).1) := by
  intro probes
  obtain ⟨h1, h2, h3, h4, h5⟩ := filter_loop_spec probes
  have hlen : (filter_by_eligibility_loop probes).1.length
      = probes.countP (fun p => decide (classify p = Verdict.accepted)) := by
    rw [h1, ← List.countP_eq_length_filter]
  have hsum := classify_partition probes
  refine ⟨by omega, by omega, ?_⟩
  intro p hp hmem
  rw [h1] at hmem
  have := List.of_mem_filter hmem
  rw [hp] at this
  exact absurd (of_decide_eq_true this) (by simp)

/-- Witness for C4 at a concrete list: one silent probe (passes rules
1-4, no good tag) and one accepted probe. -/
theorem C4_silent_drop_counter_invariant_witness :
    classify
      { id := 1, country_code := some "DE", tags := ["exotic-tag"],
        status_name := "Connected", address_v4 := some "1.2.3.4",
        address_v6 := none, latitude := 1, longitude := 1 }
      = Verdict.silent
    ∧ { id := 1, country_code := some "DE", tags := ["exotic-tag"],
        status_name := "Connected", address_v4 := some "1.2.3.4",
        address_v6 := none, latitude := 1, longitude := 1 }
      ∉ (filter_by_eligibility_loop
        [{ id := 1, country_code := some "DE", tags := ["exotic-tag"],
           status_name := "Connected", address_v4 := some "1.2.3.4",
           address_v6 := none, latitude := 1, longitude := 1 },
         { id := 2, country_code := some "DE", tags := ["home"],
           status_name := "Connected", address_v4 := some "1.2.3.4",
           address_v6 := none, latitude := 1, longitude := 1 }]).1 :=
  ⟨by decide,
   (C4_silent_drop_counter_invariant _).2.2 _ (by decide)⟩

/-- C9: on the empty probe list both filters fail through `pct`'s
assertion (`denominator > 0`) instead of returning an empty result; on
any non-empty list the eligibility filter's assertion holds and it
returns the loop's eligible subset. -/
theorem C9_empty_input_pct_assertion :
    filter_by_eligibility [] = Except.error ()
    ∧ (∀ tzdb nowAt, filter_by_time tzdb nowAt [] = Except.error ())
    ∧ (∀ n : Nat, pct n 0 = Except.error ())
    ∧ (∀ n d : Nat, 0 < d → ∃ r, pct n d = Except.ok r)
    ∧ (∀ probes : List Probe, probes ≠ [] →
        filter_by_eligibility probes
          = Except.ok (filter_by_eligibility_loop probes).1) := by
  refine ⟨by simp [filter_by_eligibility, pct, Bind.bind, Except.bind], ?_, ?_, ?_, ?_⟩
  · intro tzdb nowAt
    simp [filter_by_time, filter_by_time_loop, pct, Bind.bind, Except.bind]
  · intro n
    simp [pct]
  · intro n d hd
    exact ⟨(n : Rat) / (d : Rat) * 100, by simp [pct, hd]⟩
  · intro probes hne
    have hlen : 0 < probes.length := List.length_pos.mpr hne
    simp [filter_by_eligibility, pct, hlen, Bind.bind, Except.bind]

/-- The readiness loop aborts when any probe has a zero coordinate. -/
theorem filter_by_time_loop_error (tzdb : Rat → Rat → Option String)
    (nowAt : String → Nat) (probes : List Probe) (p : Probe)
    (hp : p ∈ probes) (hz : p.latitude = 0 ∨ p.longitude = 0) :
    filter_by_time_loop tzdb nowAt probes = Except.error () := by
  induction probes with
  | nil => cases hp
  | cons q rest ih =>
    rcases List.mem_cons.mp hp with rfl | hmem
    · have hz' : lat_lon_to_timezone tzdb p.latitude p.longitude
          = Except.error () := by
        rw [lat_lon_to_timezone, if_pos hz]
      simp only [filter_by_time_loop, hz']
    · rcases h : lat_lon_to_timezone tzdb q.latitude q.longitude with e | tz
      · cases e
        simp only [filter_by_time_loop, h]
      · simp only [filter_by_time_loop, h, ih hmem]

/-- The readiness loop returns exactly the ready subset when every probe
resolves to a zone. -/
theorem filter_by_time_loop_ok (tzdb : Rat → Rat → Option String)
    (nowAt : String → Nat) (tzOf : Probe → String) :
    ∀ probes : List Probe,
      (∀ p ∈ probes, lat_lon_to_timezone tzdb p.latitude p.longitude
        = Except.ok (tzOf p)) →
      filter_by_time_loop tzdb nowAt probes
        = Except.ok (probes.filter
            (fun p => ready_for_measurement (nowAt (tzOf p)))) := by
  intro probes
  induction probes with
  | nil => intro _; rfl
  | cons q rest ih =>
    intro h
    have hq := h q (List.mem_cons_self _ _)
    have hrest := ih (fun p hp => h p (List.mem_cons_of_mem _ hp))
    by_cases hr : ready_for_measurement (nowAt (tzOf q)) = true
    · simp only [filter_by_time_loop, hq, hrest, List.filter_cons, hr, if_pos]
    · simp only [filter_by_time_loop, hq, hrest, List.filter_cons]
      simp [hr]

/-- C2 counterexample: with `probe_zero_lat` (latitude exactly 0) first
in the list, `filter_by_time` hits the assertion in
`lat_lon_to_timezone` and aborts, returning no probe list at all instead
of excluding that probe and continuing with `probe_good` (which alone is
accepted). -/
theorem C2_counterexample_zero_lat_aborts :
    filter_by_time tz_const now_zero [probe_zero_lat, probe_good]
      = Except.error ()
    ∧ filter_by_time tz_const now_zero [probe_good]
      = Except.ok [probe_good] := by
  constructor <;> rfl

/-- C2 amended: a zero-valued coordinate (or an unresolvable zone) does
not merely exclude that probe: the assertion failure aborts the whole
readiness filter; only when every probe's coordinates are nonzero and
resolve to a zone does the filter return, and it returns exactly the
ready subset. -/
theorem C2_zero_coordinate_aborts_filter :
    (∀ (tzdb : Rat → Rat → Option String) (nowAt : String → Nat)
        (probes : List Probe) (p : Probe), p ∈ probes →
      p.latitude = 0 ∨ p.longitude = 0 →
      filter_by_time tzdb nowAt probes = Except.error ())
    ∧ (∀ (tzdb : Rat → Rat → Option String) (nowAt : String → Nat)
        (tzOf : Probe → String) (probes : List Probe),
        (∀ p ∈ probes,
          lat_lon_to_timezone tzdb p.latitude p.longitude
            = Except.ok (tzOf p)) →
        probes ≠ [] →
        filter_by_time tzdb nowAt probes
          = Except.ok (probes.filter
              (fun p => ready_for_measurement (nowAt (tzOf p))))) := by
  constructor
  · intro tzdb nowAt probes p hp hz
    have hloop := filter_by_time_loop_error tzdb nowAt probes p hp hz
    simp [filter_by_time, hloop, Bind.bind, Except.bind]
  · intro tzdb nowAt tzOf probes hres hne
    have hloop := filter_by_time_loop_ok tzdb nowAt tzOf probes hres
    have hlen : 0 < probes.length := List.length_pos.mpr hne
    simp [filter_by_time, hloop, Bind.bind, Except.bind, pct, hlen]

/-- Witness for C2's amended statement at concrete inputs. -/
theorem C2_zero_coordinate_aborts_filter_witness :
    filter_by_time tz_const now_zero [probe_zero_lat] = Except.error ()
    ∧ filter_by_time tz_const now_zero [probe_good]
      = Except.ok ([probe_good].filter
          (fun p => ready_for_measurement (now_zero (tz_name p)))) :=
  ⟨C2_zero_coordinate_aborts_filter.1 tz_const now_zero _ probe_zero_lat
      (by simp) (Or.inl rfl),
   C2_zero_coordinate_aborts_filter.2 tz_const now_zero tz_name _
      (by intro p hp; rcases List.mem_singleton.mp hp with rfl; rfl)
      (by simp)⟩

/-- C7 counterexample: with one ready probe the round's event trace is
not the claimed dispatch, sleep, dispatch, sleep, dispatch shape with no
suspension after the third repeat: the code also sleeps five minutes
after the third dispatch. -/
theorem C7_counterexample_no_trailing_sleep :
    round_dispatch [probe_good]
      ≠ [Event.runBatches [probe_good], Event.sleepSecs 300,
         Event.runBatches [probe_good], Event.sleepSecs 300,
         Event.runBatches [probe_good]] := by
  decide

/-- C7 amended: a round with a non-empty ready set invokes the batch
dispatcher exactly 3 times, each invocation followed by a 5-minute
suspension - including one after the third repeat; a round with an empty
ready set dispatches nothing and adds no suspension. -/
theorem C7_three_dispatches_trailing_sleep :
    (∀ current_probes : List Probe, current_probes ≠ [] →
      round_dispatch current_probes
        = [Event.runBatches current_probes, Event.sleepSecs 300,
           Event.runBatches current_probes, Event.sleepSecs 300,
           Event.runBatches current_probes, Event.sleepSecs 300]
      ∧ (round_dispatch current_probes).countP Event.isRunBatches = 3)
    ∧ round_dispatch [] = [] := by
  constructor
  · intro cur hne
    have hlen : 0 < cur.length := List.length_pos.mpr hne
    rw [round_dispatch, if_pos hlen]
    exact ⟨rfl, rfl⟩
  · rfl

/-- Witness for C7's amended statement at a one-probe ready set. -/
theorem C7_three_dispatches_trailing_sleep_witness :
    round_dispatch [probe_good]
      = [Event.runBatches [probe_good], Event.sleepSecs 300,
         Event.runBatches [probe_good], Event.sleepSecs 300,
         Event.runBatches [probe_good], Event.sleepSecs 300]
    ∧ (round_dispatch [probe_good]).countP Event.isRunBatches = 3 :=
  C7_three_dispatches_trailing_sleep.1 [probe_good] (by simp)

/-- Concatenating the chunks gives back the probe list. -/
theorem chunksFuel_flatten : ∀ (fuel : Nat) (probes : List Probe),
    probes.length ≤ fuel → (chunksFuel fuel probes).flatten = probes := by
  intro fuel
  induction fuel with
  | zero =>
    intro probes h
    have hnil : probes = [] := List.length_eq_zero.mp (Nat.le_zero.mp h)
    subst hnil; rfl
  | succ f ih =>
    intro probes h
    cases probes with
    | nil => rfl
    | cons p rest =>
      rw [chunksFuel, List.flatten_cons, ih ((p :: rest).drop 50)
        (by simp only [List.length_drop, List.length_cons] at h ⊢; omega)]
      exact List.take_append_drop 50 (p :: rest)

/-- Every chunk holds at most 50 probes. -/
theorem chunksFuel_le_50 : ∀ (fuel : Nat) (probes : List Probe),
    ∀ b ∈ chunksFuel fuel probes, b.length ≤ 50 := by
  intro fuel
  induction fuel with
  | zero => intro probes b hb; simp [chunksFuel] at hb
  | succ f ih =>
    intro probes b hb
    cases probes with
    | nil => simp [chunksFuel] at hb
    | cons p rest =>
      rw [chunksFuel] at hb
      rcases List.mem_cons.mp hb with rfl | hmem
      · exact List.length_take_le 50 (p :: rest)
      · exact ih _ b hmem

/-- The number of chunks is the number of 50-sized batches, rounded up. -/
theorem chunksFuel_count : ∀ (fuel : Nat) (probes : List Probe),
    probes.length ≤ fuel →
    (chunksFuel fuel probes).length = (probes.length + 49) / 50 := by
  intro fuel
  induction fuel with
  | zero =>
    intro probes h
    have hnil : probes = [] := List.length_eq_zero.mp (Nat.le_zero.mp h)
    subst hnil; rfl
  | succ f ih =>
    intro probes h
    cases probes with
    | nil => rfl
    | cons p rest =>
      rw [chunksFuel, List.length_cons,
        ih ((p :: rest).drop 50)
          (by simp only [List.length_drop, List.length_cons] at h ⊢; omega)]
      simp only [List.length_drop, List.length_cons]
      omega

/-- C5: `run_in_batches` cuts N probes into ceil(N/50) batches of at most
50, keeping order and covering each probe exactly once (their
concatenation is the input); every batch dispatch submits the 6 specs of
`batch_measurements` - per address family one certificate retrieval, one
ICMP traceroute and one TCP traceroute; 120 probes give batch sizes
50, 50, 20. -/
theorem C5_batches_and_six_specs :
    (∀ probes : List Probe,
      (run_in_batches probes).length = (probes.length + 49) / 50
      ∧ (∀ b ∈ run_in_batches probes, b.length ≤ 50)
      ∧ (run_in_batches probes).flatten = probes)
    ∧ batch_measurements.length = 6
    ∧ batch_measurements
        = create_measurements V4_TARGET 4 ++ create_measurements V6_TARGET 6
    ∧ (batch_measurements.filter (fun m =>
        decide (m.af = 4 ∧ m.kind = MKind.sslcert))).length = 1
    ∧ (batch_measurements.filter (fun m =>
        decide (m.af = 4 ∧ m.kind = MKind.traceroute
          ∧ m.protocol = some "ICMP"))).length = 1
    ∧ (batch_measurements.filter (fun m =>
        decide (m.af = 4 ∧ m.kind = MKind.traceroute
          ∧ m.protocol = some "TCP"))).length = 1
    ∧ (batch_measurements.filter (fun m =>
        decide (m.af = 6 ∧ m.kind = MKind.sslcert))).length = 1
    ∧ (batch_measurements.filter (fun m =>
        decide (m.af = 6 ∧ m.kind = MKind.traceroute
          ∧ m.protocol = some "ICMP"))).length = 1
    ∧ (batch_measurements.filter (fun m =>
        decide (m.af = 6 ∧ m.kind = MKind.traceroute
          ∧ m.protocol = some "TCP"))).length = 1
    ∧ (run_in_batches probes120).map List.length = [50, 50, 20] := by
  refine ⟨?_, by decide, by decide, by decide, by decide, by decide,
    by decide, by decide, by decide, by decide⟩
  intro probes
  exact ⟨chunksFuel_count _ _ le_rfl, chunksFuel_le_50 _ _,
    chunksFuel_flatten _ _ le_rfl⟩

/-- Witness for C5's per-batch bound at the first batch of 120 probes. -/
theorem C5_batches_and_six_specs_witness :
    (probes120.take 50).length ≤ 50 :=
  (C5_batches_and_six_specs.1 probes120).2.1 _ (by decide)

/-- `Nat.toDigitsCore` never shrinks the digit accumulator. -/
theorem toDigitsCore_len_le (b : Nat) :
    ∀ (fuel n : Nat) (ds : List Char),
      ds.length ≤ (Nat.toDigitsCore b fuel n ds).length := by
  intro fuel
  induction fuel with
  | zero => intro n ds; simp [Nat.toDigitsCore]
  | succ f ih =>
    intro n ds
    simp only [Nat.toDigitsCore]
    split
    · simp
    · exact le_trans (by simp) (ih _ _)

/-- The decimal rendering of a natural number is never empty. -/
theorem repr_length_pos (n : Nat) : 1 ≤ (Nat.repr n).length := by
  have hcast : (Nat.repr n).length = (Nat.toDigits 10 n).length := rfl
  rw [hcast, Nat.toDigits]
  simp only [Nat.toDigitsCore]
  split
  · simp
  · exact le_trans (by simp) (toDigitsCore_len_le 10 n _ _)

/-- A list of positive numbers has sum at least its length. -/
theorem length_le_sum_of_one_le (l : List Nat) (h : ∀ x ∈ l, 1 ≤ x) :
    l.length ≤ l.sum := by
  induction l with
  | nil => simp
  | cons a t ih =>
    simp only [List.length_cons, List.sum_cons]
    have ha := h a (List.mem_cons_self _ _)
    have ht := ih (fun x hx => h x (List.mem_cons_of_mem _ hx))
    omega

/-- Length of a comma-joined non-empty string list. -/
theorem join_comma_length : ∀ l : List String, l ≠ [] →
    (join_comma l).length = (l.map String.length).sum + (l.length - 1) := by
  intro l
  induction l with
  | nil => intro h; cases h rfl
  | cons s rest ih =>
    intro _
    cases rest with
    | nil => simp [join_comma]
    | cons t ts =>
      simp only [join_comma, String.length_append]
      rw [ih (List.cons_ne_nil t ts)]
      have hco : (",").length = 1 := rfl
      simp only [hco, List.map_cons, List.sum_cons, List.length_cons]
      omega

/-- C10: the `requested` field of the change source is the character
length of the comma-joined probe-ID string; on a non-empty batch it
equals the probe count exactly when the batch has one probe whose decimal
id is a single character. -/
theorem C10_requested_counts_characters :
    (∀ probes : List Probe,
      (schedule_source probes).requested = (probe_ids_str probes).length
      ∧ (schedule_source probes).value = probe_ids_str probes)
    ∧ (∀ probes : List Probe, probes ≠ [] →
        ((schedule_source probes).requested = probes.length ↔
          probes.length = 1 ∧ ∀ p ∈ probes, (Nat.repr p.id).length = 1)) := by
  constructor
  · intro probes; exact ⟨rfl, rfl⟩
  · intro probes hne
    have hmapne : probes.map (fun p => Nat.repr p.id) ≠ [] := by
      simpa using hne
    have hlen : (schedule_source probes).requested
        = (probes.map (fun p => (Nat.repr p.id).length)).sum
          + (probes.length - 1) := by
      show (probe_ids_str probes).length = _
      rw [probe_ids_str, join_comma_length _ hmapne, List.map_map,
        List.length_map]
      rfl
    have hone : ∀ x ∈ probes.map (fun p => (Nat.repr p.id).length),
        1 ≤ x := by
      intro x hx
      rcases List.mem_map.mp hx with ⟨p, _, rfl⟩
      exact repr_length_pos _
    have hsum := length_le_sum_of_one_le _ hone
    rw [List.length_map] at hsum
    have hnlen : 0 < probes.length := List.length_pos.mpr hne
    constructor
    · intro heq
      rw [hlen] at heq
      have hn1 : probes.length = 1 := by omega
      refine ⟨hn1, ?_⟩
      rcases List.length_eq_one.mp hn1 with ⟨p, rfl⟩
      intro q hq
      rcases List.mem_singleton.mp hq with rfl
      simp only [List.map_cons, List.map_nil, List.sum_cons,
        List.sum_nil] at heq
      simpa using heq
    · rintro ⟨h1, h2⟩
      rcases List.length_eq_one.mp h1 with ⟨p, rfl⟩
      have hp := h2 p (by simp)
      rw [hlen]
      simp [hp]

/-- Witness for C10 at a one-probe batch with a one-digit id. -/
theorem C10_requested_counts_characters_witness :
    (schedule_source [mk_probe 5]).requested = [mk_probe 5].length :=
  (C10_requested_counts_characters.2 [mk_probe 5] (by simp)).mpr
    ⟨rfl, by decide⟩

/-- Inserting a fresh key into the dict appends it. -/
theorem dictInsert_fresh (k : Nat) (v : Probe) :
    ∀ d : List (Nat × Probe), (∀ e ∈ d, e.1 ≠ k) →
      dictInsert k v d = d ++ [(k, v)] := by
  intro d
  induction d with
  | nil => intro _; rfl
  | cons e rest ih =>
    intro h
    obtain ⟨k', v'⟩ := e
    have hne : k ≠ k' := fun hk =>
      h (k', v') (List.mem_cons_self _ _) hk.symm
    rw [dictInsert, if_neg hne, ih (fun e he => h e (List.mem_cons_of_mem _ he))]
    rfl

/-- With pairwise-distinct ids the dict is the association list of the
probes in input order, past any accumulator with disjoint keys. -/
theorem foldl_dictInsert (probes : List Probe) :
    ∀ acc : List (Nat × Probe),
      (probes.map Probe.id).Nodup →
      (∀ e ∈ acc, e.1 ∉ probes.map Probe.id) →
      probes.foldl (fun d p => dictInsert p.id p d) acc
        = acc ++ probes.map (fun p => (p.id, p)) := by
  induction probes with
  | nil => intro acc _ _; simp
  | cons p rest ih =>
    intro acc hnd hdisj
    have hnd' := (List.nodup_cons.mp hnd).2
    have hpid := (List.nodup_cons.mp hnd).1
    have hfresh : ∀ e ∈ acc, e.1 ≠ p.id := fun e he =>
      fun hk => hdisj e he (by simp [hk])
    rw [List.foldl_cons, dictInsert_fresh p.id p acc hfresh,
      ih (acc ++ [(p.id, p)]) hnd' ?side]
    · simp
    case side =>
      intro e he
      rcases List.mem_append.mp he with ha | hb
      · exact fun hmem => hdisj e ha (List.mem_cons_of_mem _ hmem)
      · rcases List.mem_singleton.mp hb with rfl
        exact hpid

/-- Looking up a probe's id in the association list finds that probe. -/
theorem lookupId_assoc (probes : List Probe)
    (hnd : (probes.map Probe.id).Nodup) (p : Probe) (hp : p ∈ probes) :
    lookupId (probes.map (fun q => (q.id, q))) p.id = some p := by
  induction probes with
  | nil => cases hp
  | cons q rest ih =>
    have hnd' := (List.nodup_cons.mp hnd).2
    have hqid := (List.nodup_cons.mp hnd).1
    rcases List.mem_cons.mp hp with rfl | hmem
    · simp [lookupId]
    · have hne : p.id ≠ q.id := by
        intro hk
        exact hqid (hk ▸ List.mem_map_of_mem Probe.id hmem)
      simp only [List.map_cons, lookupId, if_neg hne]
      exact ih hnd' hmem

/-- Key insertion commutes with projecting ids from probe insertion. -/
theorem insertNat_map_id (p : Probe) :
    ∀ l : List Probe,
      insertNat p.id (l.map Probe.id) = (insertProbe p l).map Probe.id := by
  intro l
  induction l with
  | nil => rfl
  | cons q qs ih =>
    by_cases h : p.id ≤ q.id
    · simp [insertNat, insertProbe, h]
    · simp [insertNat, insertProbe, h, ih]

/-- Sorting the ids equals sorting the probes by id, then projecting. -/
theorem sortNat_map_id :
    ∀ l : List Probe, sortNat (l.map Probe.id) = (sortProbes l).map Probe.id := by
  intro l
  induction l with
  | nil => rfl
  | cons p ps ih => simp [sortNat, sortProbes, ih, insertNat_map_id]

/-- Insertion produces a permutation of consing. -/
theorem insertProbe_perm (p : Probe) :
    ∀ l : List Probe, (insertProbe p l).Perm (p :: l) := by
  intro l
  induction l with
  | nil => rfl
  | cons q qs ih =>
    by_cases h : p.id ≤ q.id
    · rw [insertProbe, if_pos h]
    · rw [insertProbe, if_neg h]
      exact (ih.cons q).trans (List.Perm.swap p q qs)

/-- Insertion sort permutes the list. -/
theorem sortProbes_perm : ∀ l : List Probe, (sortProbes l).Perm l := by
  intro l
  induction l with
  | nil => rfl
  | cons p ps ih => exact (insertProbe_perm p (sortProbes ps)).trans (ih.cons p)

/-- Insertion keeps the ascending-id invariant. -/
theorem insertProbe_pairwise (p : Probe) :
    ∀ l : List Probe, l.Pairwise (fun a b => a.id ≤ b.id) →
      (insertProbe p l).Pairwise (fun a b => a.id ≤ b.id) := by
  intro l
  induction l with
  | nil => intro _; simp [insertProbe]
  | cons q qs ih =>
    intro h
    obtain ⟨hq, hqs⟩ := List.pairwise_cons.mp h
    by_cases hle : p.id ≤ q.id
    · rw [insertProbe, if_pos hle]
      refine List.pairwise_cons.mpr ⟨?_, h⟩
      intro x hx
      rcases List.mem_cons.mp hx with rfl | hmem
      · exact hle
      · exact le_trans hle (hq x hmem)
    · rw [insertProbe, if_neg hle]
      refine List.pairwise_cons.mpr ⟨?_, ih hqs⟩
      intro x hx
      rcases List.mem_cons.mp ((insertProbe_perm p qs).mem_iff.mp hx)
        with rfl | hmem
      · omega
      · exact hq x hmem

/-- Sorting by id yields an ascending-id list. -/
theorem sortProbes_pairwise :
    ∀ l : List Probe, (sortProbes l).Pairwise (fun a b => a.id ≤ b.id) := by
  intro l
  induction l with
  | nil => simp [sortProbes]
  | cons p ps ih => exact insertProbe_pairwise p (sortProbes ps) ih

/-- Printing the mapped keys of probes that all resolve yields one line
per probe, in the probes' order. -/
theorem print_lines_map (d : List (Nat × Probe)) :
    ∀ l : List Probe,
      (∀ p ∈ l, lookupId d p.id = some p) →
      (∀ p ∈ l, pick_addr p ≠ none) →
      print_lines d (l.map Probe.id)
        = some (l.map (fun p => csv_line p.id ((pick_addr p).getD ""))) := by
  intro l
  induction l with
  | nil => intro _ _; rfl
  | cons p rest ih =>
    intro hlk haddr
    have hp := hlk p (List.mem_cons_self _ _)
    have hpa := haddr p (List.mem_cons_self _ _)
    rcases ha : pick_addr p with _ | addr
    · exact absurd ha hpa
    · have hrest := ih (fun q hq => hlk q (List.mem_cons_of_mem _ hq))
        (fun q hq => haddr q (List.mem_cons_of_mem _ hq))
      simp only [List.map_cons, print_lines, hp, ha, hrest, Option.getD_some]

/-- C8: with every probe carrying at least one address and all ids
distinct, `print_probes` prints exactly one `id,addr` line per probe, in
ascending id order, preferring the IPv4 address. -/
theorem C8_print_probes_sorted_csv (probes : List Probe)
    (haddr : ∀ p ∈ probes, p.address_v4 ≠ none ∨ p.address_v6 ≠ none)
    (hids : (probes.map Probe.id).Nodup) :
    print_probes probes
      = some ((sortProbes probes).map (fun p =>
          csv_line p.id ((pick_addr p).getD "")))
    ∧ (sortProbes probes).Perm probes
    ∧ (sortProbes probes).Pairwise (fun a b => a.id ≤ b.id) := by
  refine ⟨?_, sortProbes_perm probes, sortProbes_pairwise probes⟩
  have hdict : probe_by_id probes = probes.map (fun p => (p.id, p)) := by
    simpa using foldl_dictInsert probes [] hids (by simp)
  have hkeys : (probe_by_id probes).map Prod.fst = probes.map Probe.id := by
    rw [hdict, List.map_map]; rfl
  have hpick : ∀ p ∈ sortProbes probes, pick_addr p ≠ none := by
    intro p hp
    rcases haddr p ((sortProbes_perm probes).subset hp) with h4 | h6
    · rcases h : p.address_v4 with _ | a
      · exact absurd h h4
      · simp [pick_addr, h]
    · rcases h : p.address_v4 with _ | a
      · simpa [pick_addr, h] using h6
      · simp [pick_addr, h]
  have hlk : ∀ p ∈ sortProbes probes,
      lookupId (probe_by_id probes) p.id = some p := by
    intro p hp
    rw [hdict]
    exact lookupId_assoc probes hids p ((sortProbes_perm probes).subset hp)
  rw [print_probes, hkeys, sortNat_map_id]
  exact print_lines_map (probe_by_id probes) (sortProbes probes) hlk hpick

/-- Witness for C8 at a two-probe list: an IPv6-only probe with the
larger id first, an IPv4 probe with the smaller id second. -/
theorem C8_print_probes_sorted_csv_witness :
    print_probes [probe_v6only, mk_probe 1]
      = some ((sortProbes [probe_v6only, mk_probe 1]).map (fun p =>
          csv_line p.id ((pick_addr p).getD "")))
    ∧ (sortProbes [probe_v6only, mk_probe 1]).Perm [probe_v6only, mk_probe 1]
    ∧ (sortProbes [probe_v6only, mk_probe 1]).Pairwise
        (fun a b => a.id ≤ b.id) :=
  C8_print_probes_sorted_csv [probe_v6only, mk_probe 1]
    (by decide) (by decide)

/-- Witness for C9's positive parts at concrete inputs. -/
theorem C9_empty_input_pct_assertion_witness :
    (∃ r, pct 1 2 = Except.ok r)
    ∧ filter_by_eligibility
        [{ id := 2, country_code := some "DE", tags := ["home"],
           status_name := "Connected", address_v4 := some "1.2.3.4",
           address_v6 := none, latitude := 1, longitude := 1 }]
      = Except.ok (filter_by_eligibility_loop
        [{ id := 2, country_code := some "DE", tags := ["home"],
           status_name := "Connected", address_v4 := some "1.2.3.4",
           address_v6 := none, latitude := 1, longitude := 1 }]).1 :=
  ⟨C9_empty_input_pct_assertion.2.2.2.1 1 2 (by decide),
   C9_empty_input_pct_assertion.2.2.2.2 _ (by simp)⟩

end Scheduler
